import Mathlib

/-
Verification development for the driftwatch repository.

The development shallowly embeds the two core components:
  * `src/app/driftwatch_client.py` — the buffered, retrying ingestion client
    (`DriftWatchClient`): sanitizer, bounded drop-oldest buffer, flush
    trigger, and retrying persistence engine;
  * `src/ml_observability_mvp/jobs/compute_daily_metrics.py` — the daily
    metrics job: the PSI drift statistic (`compute_psi`) and the
    classification performance (F1) branch of `process_model_metrics`.

Modelling conventions:
  * Python scalars and JSON-like values are the inductive `PyVal`; a Python
    float is a `PyFloat`, either a finite rational or one of the non-finite
    values NaN / +inf / -inf (floating-point rounding is irrelevant to the
    sanitizer, which only tests finiteness).
  * `time.time()` is an explicit rational-number parameter threaded through
    the operations; `time.sleep(w)` is recorded by returning the list of
    sleep durations performed.
  * The outcome of each database write attempt inside `flush` is an explicit
    oracle `results : Nat → Bool` (`true` = commit succeeds, `false` = a
    transient `psycopg2.Error`/`OSError` is raised and caught); all other
    behavior of `flush` is a pure state transformation, so "returns without
    raising" is inherent in the model.
  * Real-valued arithmetic of the metrics job (pandas/numpy float math) is
    modelled exactly over ℚ, with the final PSI sum over ℝ using `Real.log`.
-/

/-! ## Python floats and JSON-like values -/

/-- A Python float: either a finite value (modelled exactly as a rational)
or one of the non-finite IEEE values NaN, +inf, -inf. -/
inductive PyFloat where
  | finite (q : ℚ)
  | nan
  | inf
  | ninf
deriving DecidableEq

/-- Mirrors `math.isnan(val) or math.isinf(val)` on a float. -/
def PyFloat.isNonFinite : PyFloat → Bool
  | .finite _ => false
  | .nan => true
  | .inf => true
  | .ninf => true

/-- A Python value as it can appear in `features_json` / `segment_json`
(`Dict[str, Any]`): None, bool, int, float, str, list, or nested dict. -/
inductive PyVal where
  | pynone
  | pybool (b : Bool)
  | pyint (n : Int)
  | pyfloat (f : PyFloat)
  | pystr (s : String)
  | pylist (xs : List PyVal)
  | pydict (kvs : List (String × PyVal))

/-- Embeds `DriftWatchClient._sanitize` (driftwatch_client.py lines 52-59):
`None` stays `None`; a float that is NaN or infinite becomes `None`; every
other value is returned unchanged.  Note the source inspects only the value
itself (`isinstance(val, float)`), it does not recurse into containers. -/
def sanitize : PyVal → PyVal
  | .pynone => .pynone
  | .pyfloat f => if f.isNonFinite then .pynone else .pyfloat f
  | v => v

/-- The value is, at top level, a non-finite float. -/
def isTopNonFinite : PyVal → Bool
  | .pyfloat f => f.isNonFinite
  | _ => false

mutual

/-- The value contains a non-finite float at some depth. -/
def containsNonFinite : PyVal → Bool
  | .pyfloat f => f.isNonFinite
  | .pylist xs => containsNonFiniteList xs
  | .pydict kvs => containsNonFiniteDict kvs
  | _ => false

/-- Some element of the list contains a non-finite float. -/
def containsNonFiniteList : List PyVal → Bool
  | [] => false
  | v :: vs => containsNonFinite v || containsNonFiniteList vs

/-- Some value of the association list contains a non-finite float. -/
def containsNonFiniteDict : List (String × PyVal) → Bool
  | [] => false
  | kv :: kvs => containsNonFinite kv.2 || containsNonFiniteDict kvs

end

/-- Embeds the dict comprehension
`{k: self._sanitize(v) for k, v in features_json.items()}`
(driftwatch_client.py lines 78-79): the sanitizer is applied to each
top-level value; insertion order of keys is preserved. -/
def cleanDict (m : List (String × PyVal)) : List (String × PyVal) :=
  m.map (fun kv => (kv.1, sanitize kv.2))

/-- An `Optional[float]` argument seen as a Python value (`None` ↦ None). -/
def optFloatToVal : Option PyFloat → PyVal
  | Option.none => .pynone
  | some f => .pyfloat f

/-! ## DriftWatchClient: constants, state, construction -/

/-- driftwatch_client.py line 15: `MAX_BUFFER = 5000`. -/
def MAX_BUFFER : Nat := 5000

/-- driftwatch_client.py line 16: `DEFAULT_BATCH_SIZE = 50`. -/
def DEFAULT_BATCH_SIZE : Int := 50

/-- driftwatch_client.py line 17: `DEFAULT_FLUSH_SECONDS = 5`. -/
def DEFAULT_FLUSH_SECONDS : Int := 5

/-- driftwatch_client.py line 18: `MAX_RETRIES = 5`. -/
def MAX_RETRIES : Nat := 5

/-- One buffered inference event: the tuple built in
`DriftWatchClient.log_inference` (driftwatch_client.py lines 81-92). -/
structure Event where
  ts : ℚ
  model_id : String
  model_version : String
  request_id : Option String
  pred_type : String
  latency_ms : Option Int
  features_json : List (String × PyVal)
  y_pred_num : PyVal
  y_pred_text : Option String
  segment_json : List (String × PyVal)

/-- The arguments of `DriftWatchClient.log_inference`. -/
structure LogInput where
  model_id : String
  model_version : String
  ts : ℚ
  pred_type : String
  y_pred_num : Option PyFloat
  y_pred_text : Option String
  latency_ms : Option Int
  features_json : List (String × PyVal)
  segment_json : List (String × PyVal)
  request_id : Option String

/-- Builds the event tuple of `log_inference` (driftwatch_client.py lines
81-92): feature and segment maps pass through the sanitizer value-wise, and
`y_pred_num` passes through `self._sanitize` as well. -/
def mkEvent (inp : LogInput) : Event :=
  { ts := inp.ts
    model_id := inp.model_id
    model_version := inp.model_version
    request_id := inp.request_id
    pred_type := inp.pred_type
    latency_ms := inp.latency_ms
    features_json := cleanDict inp.features_json
    y_pred_num := sanitize (optFloatToVal inp.y_pred_num)
    y_pred_text := inp.y_pred_text
    segment_json := cleanDict inp.segment_json }

/-- The mutable state of a `DriftWatchClient` instance (driftwatch_client.py
lines 23-41).  `bufferCap` records the `maxlen` the deque was constructed
with (line 36: `deque(maxlen=MAX_BUFFER)`). -/
structure ClientState where
  enabled : Bool
  dsn : Option String
  batchSize : Int
  flushSeconds : Int
  bufferCap : Nat
  buffer : List Event
  lastFlushTime : ℚ
  droppedEvents : Nat
  flushFailures : Nat
  insertSuccess : Nat

/-- ASCII lowercase of one character, the behavior of Python `str.lower`
on the configuration strings this client reads. -/
def asciiLower (c : Char) : Char :=
  if 'A' ≤ c ∧ c ≤ 'Z' then Char.ofNat (c.toNat + 32) else c

/-- Models Python `str.lower()` (ASCII range; the configuration flag is
compared against the ASCII literal `"true"`). -/
def pyLower (s : String) : String :=
  String.mk (s.toList.map asciiLower)

/-- Strips leading and trailing whitespace from a character list, the
stripping Python `int(s)` performs. -/
def trimChars (cs : List Char) : List Char :=
  ((cs.dropWhile Char.isWhitespace).reverse.dropWhile Char.isWhitespace).reverse

/-- Models Python `int(s)` on a string: optional surrounding whitespace, an
optional sign, then a non-empty digit run; `Option.none` models the
`ValueError` path.  (Underscore digit separators are not modelled; no
configuration value in this development uses them.) -/
def parsePyInt (s : String) : Option Int :=
  let chars := trimChars s.toList
  let (sign, digits) :=
    match chars with
    | '-' :: rest => ((-1 : Int), rest)
    | '+' :: rest => ((1 : Int), rest)
    | rest => ((1 : Int), rest)
  if digits = [] then Option.none
  else if digits.all (fun c => c.isDigit) then
    some (sign * (digits.foldl (fun acc c => acc * 10 + ((c.toNat - '0'.toNat : Nat) : Int)) 0))
  else Option.none

/-- Embeds `DriftWatchClient.__init__` (driftwatch_client.py lines 23-49).
The environment is the explicit map `env`; `now` models the `time.time()`
call initializing `last_flush_time`.  `os.getenv(k, d)` is
`(env k).getD d`; the `try`/`except ValueError` block resets both numeric
settings to their defaults when either fails to parse; a client enabled by
the flag but missing `DRIFTWATCH_DATABASE_URL` disables itself. -/
def initClient (env : String → Option String) (now : ℚ) : ClientState :=
  let enabled0 := pyLower ((env "DRIFTWATCH_ENABLED").getD "true") == "true"
  let dsn := env "DRIFTWATCH_DATABASE_URL"
  let parsedBatch := parsePyInt ((env "DRIFTWATCH_BATCH_SIZE").getD "50")
  let parsedFlush := parsePyInt ((env "DRIFTWATCH_FLUSH_SECONDS").getD "5")
  let settings :=
    match parsedBatch, parsedFlush with
    | some b, some f => (b, f)
    | _, _ => (DEFAULT_BATCH_SIZE, DEFAULT_FLUSH_SECONDS)
  let enabled := if enabled0 && dsn.isNone then false else enabled0
  { enabled := enabled
    dsn := dsn
    batchSize := settings.1
    flushSeconds := settings.2
    bufferCap := MAX_BUFFER
    buffer := []
    lastFlushTime := now
    droppedEvents := 0
    flushFailures := 0
    insertSuccess := 0 }

/-! ## Buffer, trigger, flush, log_inference -/

/-- One enqueue into the bounded buffer (driftwatch_client.py lines 94-98):
when the buffer already holds `MAX_BUFFER` events the dropped-event counter
increments and — per the deque's `maxlen` — the oldest event is discarded as
the new one is appended. -/
def enqueue (s : List Event × Nat) (e : Event) : List Event × Nat :=
  if s.1.length = MAX_BUFFER then (s.1.drop 1 ++ [e], s.2 + 1)
  else (s.1 ++ [e], s.2)

/-- The client state after the enqueue step of `log_inference`. -/
def afterEnqueue (st : ClientState) (e : Event) : ClientState :=
  let s := enqueue (st.buffer, st.droppedEvents) e
  { st with buffer := s.1, droppedEvents := s.2 }

/-- The flush-trigger condition of `log_inference` (driftwatch_client.py
lines 100-103): buffered count at least the batch size, or time since the
last successful flush at least the flush interval. -/
def shouldFlush (st : ClientState) (now : ℚ) : Bool :=
  decide (st.batchSize ≤ (st.buffer.length : Int)) ||
  decide ((st.flushSeconds : ℚ) ≤ now - st.lastFlushTime)

/-- The retry loop of `flush` (driftwatch_client.py lines 131-150),
structured on the remaining number of attempts (`fuel`; the initial call
has `fuel = MAX_RETRIES` and `attempt = 0`, so `fuel = MAX_RETRIES -
attempt` throughout and `attempt < MAX_RETRIES - 1` is `1 < fuel`).
Returns whether some attempt succeeded together with the list of backoff
sleeps performed; on a failed attempt other than the last the loop sleeps
`wait` seconds and doubles `wait`. -/
def retryLoop (results : Nat → Bool) : Nat → Nat → ℚ → Bool × List ℚ
  | 0, _, _ => (false, [])
  | fuel + 1, attempt, wait =>
    if results attempt then (true, [])
    else if fuel = 0 then (false, [])
    else
      let r := retryLoop results fuel (attempt + 1) (wait * 2)
      (r.1, wait :: r.2)

/-- Embeds `DriftWatchClient.flush` (driftwatch_client.py lines 105-155).
Disabled client or empty buffer: no-op.  Otherwise the `while` loop pops up
to `batch_size` events from the front of the buffer (for a non-positive
`batch_size` it pops nothing and the early `if not batch: return` fires).
The write attempts run through `retryLoop` with `wait` starting at 0.5; on
success the success counter grows by the batch length and the last-flush
time is set to the current time; if every attempt failed the failure
counter increments by one and the batch is simply gone — it is never pushed
back into the buffer.  Returns the new state and the sleeps performed. -/
def flush (st : ClientState) (results : Nat → Bool) (now : ℚ) : ClientState × List ℚ :=
  if !st.enabled || st.buffer.isEmpty then (st, [])
  else
    let batch := st.buffer.take st.batchSize.toNat
    let rest := st.buffer.drop st.batchSize.toNat
    if batch.isEmpty then (st, [])
    else
      let r := retryLoop results MAX_RETRIES 0 (1 / 2)
      if r.1 then
        ({ st with buffer := rest
                   insertSuccess := st.insertSuccess + batch.length
                   lastFlushTime := now }, r.2)
      else
        ({ st with buffer := rest
                   flushFailures := st.flushFailures + 1 }, r.2)

/-- Embeds `DriftWatchClient.log_inference` (driftwatch_client.py lines
61-103).  A disabled client returns immediately.  Otherwise the sanitized
event is enqueued (drop-oldest at capacity), and `flush` runs exactly when
the trigger condition holds.  Returns the new state, whether `flush` was
invoked, and the sleeps performed. -/
def log_inference (st : ClientState) (inp : LogInput) (results : Nat → Bool)
    (now : ℚ) : ClientState × Bool × List ℚ :=
  if st.enabled = false then (st, false, [])
  else
    let st1 := afterEnqueue st (mkEvent inp)
    if shouldFlush st1 now then
      let r := flush st1 results now
      (r.1, true, r.2)
    else (st1, false, [])

/-! ## Metrics job: PSI engine (compute_daily_metrics.py lines 18-50)

Samples are lists of rationals (the job passes `.dropna()`-ed numeric
feature columns, so every element is a finite number). -/

/-- Insertion into a sorted list, the helper of `sortQ`. -/
def sortedInsert (x : ℚ) : List ℚ → List ℚ
  | [] => [x]
  | y :: ys => if x ≤ y then x :: y :: ys else y :: sortedInsert x ys

/-- Ascending insertion sort, modelling the sort pandas performs before
taking quantiles. -/
def sortQ (xs : List ℚ) : List ℚ :=
  xs.foldr sortedInsert []

/-- Floor of a non-negative rational as a natural number (`q.den` is
positive, so Euclidean division of `num` by `den` is the floor). -/
def floorNatQ (q : ℚ) : Nat :=
  (q.num.ediv q.den).toNat

/-- The linear-interpolation quantile pandas/numpy use inside `pd.qcut`:
on the sorted sample `s` of length `n`, the quantile at `q` sits at index
position `h = q * (n - 1)`, interpolating linearly between the two
neighbouring order statistics. -/
def pyQuantile (xs : List ℚ) (q : ℚ) : ℚ :=
  let s := sortQ xs
  let n := s.length
  let h := q * ((n : ℚ) - 1)
  let i := floorNatQ h
  let lo := s.getD i 0
  let hi := s.getD (i + 1) lo
  lo + (h - (i : ℚ)) * (hi - lo)

/-- Removes consecutive duplicates from a (sorted) list; on the
nondecreasing quantile-edge list this is exactly the deduplication
`duplicates='drop'` performs in `pd.qcut`. -/
def dedupSorted : List ℚ → List ℚ
  | [] => []
  | [x] => [x]
  | x :: y :: rest =>
    if x = y then dedupSorted (y :: rest) else x :: dedupSorted (y :: rest)

/-- The bin edges `pd.qcut(expected, q=buckets, retbins=True,
duplicates='drop')` returns (compute_daily_metrics.py line 30): the
`buckets + 1` quantiles of the baseline at `0, 1/buckets, ..., 1`, with
duplicate edges collapsed. -/
def qcutBins (xs : List ℚ) (buckets : Nat) : List ℚ :=
  dedupSorted ((List.range (buckets + 1)).map
    (fun i => pyQuantile xs ((i : ℚ) / (buckets : ℚ))))

/-- The bin index of a value under edges clamped to `-inf` / `+inf`
(compute_daily_metrics.py lines 34-36): with interior edges
`e_1 < ... < e_(k-1)`, `pd.cut`'s right-closed intervals put `v` into bin
`i` exactly when `e_i < v ≤ e_(i+1)`, i.e. the number of interior edges
strictly below `v`. -/
def binIndex (interiors : List ℚ) (v : ℚ) : Nat :=
  interiors.countP (fun e => decide (e < v))

/-- Per-bin proportion of a sample with zero proportions floored
(compute_daily_metrics.py lines 38-44): count the sample members landing in
bin `i`, divide by the sample length, and `.replace(0, 0.0001)`. -/
def binProp (interiors : List ℚ) (sample : List ℚ) (i : Nat) : ℚ :=
  let p : ℚ := (sample.countP (fun v => binIndex interiors v = i) : ℚ) / (sample.length : ℚ)
  if p = 0 then 1 / 10000 else p

/-- Embeds `compute_psi` (compute_daily_metrics.py lines 18-50).  Either
sample empty: 0.0.  Quantile binning of the baseline collapsing to fewer
than two distinct edges, so that no bin can be formed: 0.0 — in the source
this is the `except ValueError: return 0.0` fallback (or, in pandas
versions where the degenerate `qcut` silently yields an empty interval set,
the empty `.sum()` returning 0.0).  Otherwise: clamp the outermost edges to
infinity, take per-bin proportions of both samples with the 0.0001 floor,
and sum `(actual - expected) * ln(actual / expected)` over the bins. -/
noncomputable def compute_psi (expected actual : List ℚ) (buckets : Nat) : ℝ :=
  if expected.length = 0 ∨ actual.length = 0 then 0
  else
    let edges := qcutBins expected buckets
    if edges.length < 2 then 0
    else
      let interiors := (edges.drop 1).dropLast
      let nbins := edges.length - 1
      ((List.range nbins).map (fun i =>
        ((binProp interiors actual i - binProp interiors expected i : ℚ) : ℝ) *
          Real.log ((binProp interiors actual i : ℝ) / (binProp interiors expected i : ℝ)))).sum

/-! ## Metrics job: performance branch (compute_daily_metrics.py lines 161-193) -/

/-- One row of the label join `df_perf`: predicted value, true value, and
the prediction kind. -/
structure PerfRow where
  y_pred_num : ℚ
  y_true_num : ℚ
  pred_type : String

/-- Python/numpy `astype(int)` on a float: truncation toward zero. -/
def truncInt (q : ℚ) : Int :=
  q.num.tdiv q.den

/-- The binary-classification F1 computation (compute_daily_metrics.py
lines 183-192): threshold the predicted probability at 0.5, cast the truth
to int, count true/false positives and false negatives, and define
precision, recall and F1 as 0 whenever their denominator is 0. -/
def computeF1 (rows : List PerfRow) : ℚ :=
  let pairs := rows.map (fun r =>
    ((if (1 : ℚ) / 2 ≤ r.y_pred_num then (1 : Int) else 0), truncInt r.y_true_num))
  let tp : Nat := pairs.countP (fun p => decide (p.1 = 1) && decide (p.2 = 1))
  let fpos : Nat := pairs.countP (fun p => decide (p.1 = 1) && decide (p.2 = 0))
  let fneg : Nat := pairs.countP (fun p => decide (p.1 = 0) && decide (p.2 = 1))
  let prec : ℚ := if 0 < tp + fpos then (tp : ℚ) / ((tp : ℚ) + (fpos : ℚ)) else 0
  let rcll : ℚ := if 0 < tp + fneg then (tp : ℚ) / ((tp : ℚ) + (fneg : ℚ)) else 0
  if 0 < prec + rcll then 2 * (prec * rcll) / (prec + rcll) else 0

/-- Mean absolute error of the regression branch (compute_daily_metrics.py
lines 180-182). -/
def maeQ (rows : List PerfRow) : ℚ :=
  ((rows.map (fun r => |r.y_true_num - r.y_pred_num|)).sum) / (rows.length : ℚ)

/-- The performance-metrics section of `process_model_metrics`
(compute_daily_metrics.py lines 161-193): with fewer than 200 label-joined
rows nothing is computed; otherwise the prediction kind of the first row
selects MAE (`regression`) or F1 (`classification`), and any other kind
yields no metric. -/
def perfMetrics (rows : List PerfRow) : List (String × ℚ) :=
  if 200 ≤ rows.length then
    match rows with
    | [] => []
    | r0 :: _ =>
      if r0.pred_type = "regression" then [("mae", maeQ rows)]
      else if r0.pred_type = "classification" then [("f1", computeF1 rows)]
      else []
  else []

/-! ## Concrete instances used by the witness theorems -/

/-- An environment with no variables set. -/
def envEmpty : String → Option String := fun _ => Option.none

/-- An environment that configures the destination and attempts — through
every plausible variable name — to configure the buffer capacity to 100. -/
def envCapAttempt : String → Option String := fun k =>
  if k = "DRIFTWATCH_MAX_BUFFER" then some "100"
  else if k = "DRIFTWATCH_BUFFER_SIZE" then some "100"
  else if k = "DRIFTWATCH_DATABASE_URL" then some "postgresql://db" else Option.none

/-- A demo inference call. -/
def demoInput : LogInput :=
  { model_id := "m"
    model_version := "v1"
    ts := 0
    pred_type := "regression"
    y_pred_num := some (.finite 1)
    y_pred_text := Option.none
    latency_ms := some 10
    features_json := [("sigma20_pct", .pyfloat (.finite 1))]
    segment_json := [("env", .pystr "test")]
    request_id := some "r0" }

/-- The demo call's sanitized event. -/
def demoEvent : Event := mkEvent demoInput

/-- A write-attempt oracle under which every attempt fails transiently. -/
def allFail : Nat → Bool := fun _ => false

/-- An enabled demo client holding one buffered event. -/
def demoState : ClientState :=
  { enabled := true
    dsn := some "postgresql://db"
    batchSize := 50
    flushSeconds := 5
    bufferCap := MAX_BUFFER
    buffer := [demoEvent]
    lastFlushTime := 0
    droppedEvents := 0
    flushFailures := 0
    insertSuccess := 0 }

/-- The four prediction/truth pairs of the F1 example. -/
def f1ExampleRows : List PerfRow :=
  [⟨9 / 10, 1, "classification"⟩, ⟨1 / 10, 0, "classification"⟩,
   ⟨6 / 10, 1, "classification"⟩, ⟨4 / 10, 0, "classification"⟩]

/-- The F1 example replicated to 200 label-joined rows, enough to pass the
200-row gate of the performance-metrics section. -/
def f1GateRows : List PerfRow := (List.replicate 50 f1ExampleRows).flatten

/-! ## Helper lemmas -/

/-- The sanitizer's output is never, at top level, a non-finite float. -/
theorem sanitize_top_finite (v : PyVal) : isTopNonFinite (sanitize v) = false := by
  cases v with
  | pyfloat f => cases hf : f.isNonFinite <;> simp [sanitize, hf, isTopNonFinite]
  | pynone => rfl
  | pybool b => rfl
  | pyint n => rfl
  | pystr s => rfl
  | pylist xs => rfl
  | pydict kvs => rfl

/-- Folding `enqueue` over a list of events from a buffer within capacity:
the resulting buffer is the last `MAX_BUFFER` elements of old buffer plus
arrivals, and the dropped-event counter counts exactly the overflow. -/
theorem enqueue_foldl (es : List Event) : ∀ (buf : List Event) (d : Nat),
    buf.length ≤ MAX_BUFFER →
    (es.foldl enqueue (buf, d)).1 = (buf ++ es).drop (buf.length + es.length - MAX_BUFFER) ∧
    (es.foldl enqueue (buf, d)).2 = d + (buf.length + es.length - MAX_BUFFER) := by
  induction es with
  | nil =>
    intro buf d hb
    have h0 : buf.length - MAX_BUFFER = 0 := Nat.sub_eq_zero_of_le hb
    simp [h0]
  | cons e es ih =>
    intro buf d hb
    rw [List.foldl_cons]
    by_cases h : buf.length = MAX_BUFFER
    · have hstep : enqueue (buf, d) e = (buf.drop 1 ++ [e], d + 1) := by
        simp [enqueue, h]
      rw [hstep]
      have hlen : (buf.drop 1 ++ [e]).length = MAX_BUFFER := by
        simp only [List.length_append, List.length_drop, List.length_singleton,
          List.length_cons, List.length_nil]
        have hpos : 0 < MAX_BUFFER := by decide
        omega
      obtain ⟨ih1, ih2⟩ := ih (buf.drop 1 ++ [e]) (d + 1) (le_of_eq hlen)
      constructor
      · rw [ih1, hlen]
        have hidx1 : MAX_BUFFER + es.length - MAX_BUFFER = es.length := by omega
        have hidx2 : buf.length + (e :: es).length - MAX_BUFFER = es.length + 1 := by
          simp only [List.length_cons]
          omega
        rw [hidx1, hidx2]
        cases buf with
        | nil => simp [MAX_BUFFER] at h
        | cons b bs => simp [List.append_assoc, List.drop_succ_cons]
      · rw [ih2, hlen]
        simp only [List.length_cons]
        omega
    · have hstep : enqueue (buf, d) e = (buf ++ [e], d) := by
        simp [enqueue, h]
      rw [hstep]
      have hlen : (buf ++ [e]).length ≤ MAX_BUFFER := by
        simp only [List.length_append, List.length_singleton, List.length_cons, List.length_nil]
        omega
      obtain ⟨ih1, ih2⟩ := ih (buf ++ [e]) d hlen
      have heq : (buf ++ [e]).length + es.length - MAX_BUFFER
          = buf.length + (e :: es).length - MAX_BUFFER := by
        simp only [List.length_append, List.length_singleton, List.length_cons, List.length_nil]
        omega
      constructor
      · rw [ih1, heq, List.append_assoc, List.singleton_append]
      · rw [ih2, heq]

/-- Passing the 200-row gate with a classification first row, the
performance section emits exactly the F1 metric. -/
theorem perfMetrics_classification (rows : List PerfRow) (r0 : PerfRow)
    (hhead : rows.head? = some r0) (hlen : 200 ≤ rows.length)
    (htype : r0.pred_type = "classification") :
    perfMetrics rows = [("f1", computeF1 rows)] := by
  match rows with
  | [] => simp at hhead
  | r :: rest =>
    simp only [List.head?_cons, Option.some_inj] at hhead
    subst hhead
    unfold perfMetrics
    rw [if_pos hlen]
    simp [htype]

/-- The F1 example evaluates to a perfect score. -/
theorem computeF1_example : computeF1 f1ExampleRows = 1 := by
  have h1 : truncInt 1 = 1 := by
    simp [truncInt, Rat.num_one, Rat.den_one]
  have h0 : truncInt 0 = 0 := by
    simp [truncInt, Rat.num_zero, Rat.den_zero]
  unfold computeF1 f1ExampleRows
  norm_num [h1, h0, List.countP_cons]

set_option maxRecDepth 4000 in
/-- The replicated gate rows also evaluate to a perfect F1 score. -/
theorem computeF1_gateRows : computeF1 f1GateRows = 1 := by
  have h1 : truncInt 1 = 1 := by
    simp [truncInt, Rat.num_one, Rat.den_one]
  have h0 : truncInt 0 = 0 := by
    simp [truncInt, Rat.num_zero, Rat.den_zero]
  have hc : ∀ (q : Int × Int → Bool),
      (f1GateRows.map (fun r =>
        ((if (1 : ℚ) / 2 ≤ r.y_pred_num then (1 : Int) else 0), truncInt r.y_true_num))).countP q
        = 50 * ((f1ExampleRows.map (fun r =>
        ((if (1 : ℚ) / 2 ≤ r.y_pred_num then (1 : Int) else 0), truncInt r.y_true_num))).countP q) := by
    intro q
    simp only [f1GateRows, List.countP_map, List.countP_flatten, List.map_replicate,
      List.sum_replicate, smul_eq_mul]
  unfold computeF1
  simp only [hc]
  norm_num [f1ExampleRows, h1, h0, List.countP_cons]

/-! ## Claim theorems -/

/-- Claim C1: for every sequence of enqueues, the buffer never exceeds the
capacity `MAX_BUFFER = 5000`; an enqueue at capacity discards the oldest
event, increments the dropped-event counter by exactly 1, and appends the
new event; thus the retained events are exactly the most recently enqueued
ones in FIFO order, and the dropped counter equals the total overflow. -/
theorem c1_bounded_buffer_drop_oldest :
    (∀ (buf : List Event) (d : Nat) (e : Event),
      enqueue (buf, d) e =
        if buf.length = MAX_BUFFER then (buf.drop 1 ++ [e], d + 1) else (buf ++ [e], d)) ∧
    (∀ es : List Event,
      (es.foldl enqueue ([], 0)).1 = es.drop (es.length - MAX_BUFFER) ∧
      (es.foldl enqueue ([], 0)).2 = es.length - MAX_BUFFER ∧
      (es.foldl enqueue ([], 0)).1.length ≤ MAX_BUFFER) := by
  constructor
  · intro buf d e
    by_cases h : buf.length = MAX_BUFFER <;> simp [enqueue, h]
  · intro es
    obtain ⟨h1, h2⟩ := enqueue_foldl es [] 0 (by simp)
    simp only [List.nil_append, List.length_nil, Nat.zero_add] at h1 h2
    refine ⟨h1, by simpa using h2, ?_⟩
    rw [h1]
    simp only [List.length_drop]
    omega

/-- Claim C2: when every one of the `MAX_RETRIES = 5` write attempts of a
flush fails transiently, flush returns (it is a total function, i.e. no
exception escapes), the flush-failure counter increments by exactly 1, the
popped batch is not re-enqueued — the new buffer is exactly the old buffer
with the batch removed from the front — the success counter is untouched,
and the backoff sleeps between consecutive attempts are 0.5s, 1s, 2s, 4s:
starting at 0.5 and doubling each attempt. -/
theorem c2_flush_exhausted_retries (st : ClientState) (results : Nat → Bool) (now : ℚ)
    (hen : st.enabled = true) (hne : st.buffer ≠ []) (hbs : 0 < st.batchSize)
    (hfail : ∀ i, results i = false) :
    (flush st results now).1.flushFailures = st.flushFailures + 1 ∧
    (flush st results now).1.buffer = st.buffer.drop st.batchSize.toNat ∧
    st.buffer = st.buffer.take st.batchSize.toNat ++ (flush st results now).1.buffer ∧
    (flush st results now).1.insertSuccess = st.insertSuccess ∧
    (flush st results now).2 = [1 / 2, 1, 2, 4] := by
  have hretry : retryLoop results MAX_RETRIES 0 (1 / 2) = (false, [1 / 2, 1, 2, 4]) := by
    show retryLoop results 5 0 (1 / 2) = (false, [1 / 2, 1, 2, 4])
    simp [retryLoop, hfail]
    norm_num
  have hcond : (!st.enabled || st.buffer.isEmpty) = false := by
    simp [hen, hne]
  have hbatch : (st.buffer.take st.batchSize.toNat).isEmpty = false := by
    simp [List.isEmpty_eq_false, List.take_eq_nil_iff, hne]
    omega
  unfold flush
  rw [hcond]
  simp only [Bool.false_eq_true, if_false, hbatch, hretry]
  simp [List.take_append_drop]

/-- Witness for C2 at the demo client: one buffered event, batch size 50,
every attempt failing. -/
theorem c2_flush_exhausted_retries_witness :
    (flush demoState allFail 0).1.flushFailures = demoState.flushFailures + 1 ∧
    (flush demoState allFail 0).1.buffer = demoState.buffer.drop demoState.batchSize.toNat ∧
    demoState.buffer
      = demoState.buffer.take demoState.batchSize.toNat ++ (flush demoState allFail 0).1.buffer ∧
    (flush demoState allFail 0).1.insertSuccess = demoState.insertSuccess ∧
    (flush demoState allFail 0).2 = [1 / 2, 1, 2, 4] :=
  c2_flush_exhausted_retries demoState allFail 0 rfl (by simp [demoState]) (by decide)
    (fun _ => rfl)

/-- Claim C3: on an enabled client, `log_inference` invokes `flush` if and
only if, after the enqueue, the buffered count is at least the batch size
or the time elapsed since the last successful flush is at least the flush
interval; and `flush` on an empty buffer is a no-op (state unchanged, no
sleeps, no write). -/
theorem c3_flush_trigger (st : ClientState) (inp : LogInput) (results : Nat → Bool) (now : ℚ)
    (hen : st.enabled = true) :
    ((log_inference st inp results now).2.1 = true ↔
      (st.batchSize ≤ ((afterEnqueue st (mkEvent inp)).buffer.length : Int) ∨
       (st.flushSeconds : ℚ) ≤ now - st.lastFlushTime)) ∧
    (st.buffer = [] → flush st results now = (st, [])) := by
  constructor
  · unfold log_inference
    by_cases h : shouldFlush (afterEnqueue st (mkEvent inp)) now <;>
      simp [hen, h] <;>
      simpa [shouldFlush, afterEnqueue] using h
  · intro hb
    unfold flush
    simp [hb]

/-- Witness for C3 at the demo client and demo call. -/
theorem c3_flush_trigger_witness :
    ((log_inference demoState demoInput allFail 0).2.1 = true ↔
      (demoState.batchSize ≤ ((afterEnqueue demoState (mkEvent demoInput)).buffer.length : Int) ∨
       (demoState.flushSeconds : ℚ) ≤ 0 - demoState.lastFlushTime)) ∧
    (demoState.buffer = [] → flush demoState allFail 0 = (demoState, [])) :=
  c3_flush_trigger demoState demoInput allFail 0 rfl

/-- Claim C4: a client constructed without `DRIFTWATCH_DATABASE_URL` in its
environment is disabled (construction itself is a total function, so
nothing is raised), and on the disabled client every `log_inference` and
every `flush` call returns immediately with the state unchanged, no flush,
and no sleeps. -/
theorem c4_missing_dsn_noop (env : String → Option String) (now : ℚ)
    (hdsn : env "DRIFTWATCH_DATABASE_URL" = Option.none) :
    (initClient env now).enabled = false ∧
    (∀ inp results t, log_inference (initClient env now) inp results t
        = (initClient env now, false, [])) ∧
    (∀ results t, flush (initClient env now) results t = (initClient env now, [])) := by
  have hen : (initClient env now).enabled = false := by
    unfold initClient
    simp only [hdsn, Option.isNone_none, Bool.and_true]
    cases pyLower ((env "DRIFTWATCH_ENABLED").getD "true") == "true" <;> simp
  refine ⟨hen, ?_, ?_⟩
  · intro inp results t
    unfold log_inference
    simp [hen]
  · intro results t
    unfold flush
    simp [hen]

/-- Witness for C4 at the empty environment and the demo call. -/
theorem c4_missing_dsn_noop_witness :
    (initClient envEmpty 0).enabled = false ∧
    log_inference (initClient envEmpty 0) demoInput allFail 3
      = (initClient envEmpty 0, false, []) ∧
    flush (initClient envEmpty 0) allFail 3 = (initClient envEmpty 0, []) :=
  ⟨(c4_missing_dsn_noop envEmpty 0 rfl).1,
   (c4_missing_dsn_noop envEmpty 0 rfl).2.1 demoInput allFail 3,
   (c4_missing_dsn_noop envEmpty 0 rfl).2.2 allFail 3⟩

/-- Counterexample to claim C5 as stated: the sanitizer is not recursive.
A feature map whose value is a list containing NaN passes through the dict
sanitization unchanged, so the buffered feature map does contain a
non-finite numeric value at depth 1. -/
theorem c5_sanitize_nested_cex :
    cleanDict [("a", PyVal.pylist [PyVal.pyfloat PyFloat.nan])]
      = [("a", PyVal.pylist [PyVal.pyfloat PyFloat.nan])] ∧
    containsNonFiniteDict (cleanDict [("a", PyVal.pylist [PyVal.pyfloat PyFloat.nan])]) = true := by
  refine ⟨rfl, ?_⟩
  simp [cleanDict, sanitize, containsNonFiniteDict, containsNonFiniteList,
    containsNonFinite, PyFloat.isNonFinite]

/-- Claim C5 (amended): the sanitizer returns each value unchanged unless
the value is itself a float NaN or infinity, which becomes None; it is
applied to the top-level values of the feature and segment maps, so after
`cleanDict` no top-level value of the buffered maps is a non-finite float
(values nested inside containers are not inspected). -/
theorem c5_sanitize_top_level (v : PyVal) (m : List (String × PyVal)) :
    sanitize v = (if isTopNonFinite v then PyVal.pynone else v) ∧
    ((cleanDict m).all (fun kv => !(isTopNonFinite kv.2))) = true := by
  constructor
  · cases v <;> simp [sanitize, isTopNonFinite]
  · simp [cleanDict, List.all_eq_true]
    intro a b hmem
    exact sanitize_top_finite b

/-- Counterexample to claim C6 as stated: an environment that sets every
plausible capacity variable to 100 still yields a client whose buffer
capacity is 5000 — the capacity is not configurable. -/
theorem c6_capacity_env_cex :
    (initClient envCapAttempt 0).bufferCap = 5000 ∧ (100 : Nat) ≠ 5000 :=
  ⟨rfl, by decide⟩

/-- Claim C6 (amended): the buffer capacity is the fixed module constant
`MAX_BUFFER = 5000` for every environment; the configuration surface (batch
size, flush interval, enable flag, destination) does not include it. -/
theorem c6_capacity_fixed (env : String → Option String) (now : ℚ) :
    (initClient env now).bufferCap = MAX_BUFFER ∧ MAX_BUFFER = 5000 :=
  ⟨rfl, rfl⟩

/-- Claim C7: `compute_psi` returns exactly 0 whenever the baseline sample
or the current sample is empty, and also when quantile binning of the
baseline degenerates entirely (fewer than two distinct bin edges, so no bin
can be formed). -/
theorem c7_psi_empty_or_degenerate (expected actual : List ℚ)
    (h : expected = [] ∨ actual = [] ∨ (qcutBins expected 10).length < 2) :
    compute_psi expected actual 10 = 0 := by
  unfold compute_psi
  by_cases he : expected.length = 0 ∨ actual.length = 0
  · rw [if_pos he]
  · have hdeg : (qcutBins expected 10).length < 2 := by
      rcases h with h | h | h
      · exact absurd (Or.inl (by simp [h])) he
      · exact absurd (Or.inr (by simp [h])) he
      · exact h
    rw [if_neg he, if_pos hdeg]

/-- Witness for C7: an empty baseline against a one-point current sample. -/
theorem c7_psi_empty_or_degenerate_witness :
    (([] : List ℚ) = [] ∨ ([1] : List ℚ) = [] ∨ (qcutBins [] 10).length < 2) ∧
    compute_psi [] [1] 10 = 0 :=
  ⟨Or.inl rfl, c7_psi_empty_or_degenerate [] [1] (Or.inl rfl)⟩

/-- Claim C8: the PSI of any non-empty sample against itself is exactly 0:
the two samples produce identical per-bin proportions under the
baseline-derived bins, so every summand vanishes. -/
theorem c8_psi_self_zero (x : List ℚ) (hx : x ≠ []) :
    compute_psi x x 10 = 0 := by
  unfold compute_psi
  have hlen : ¬(x.length = 0 ∨ x.length = 0) := by
    simp [List.length_eq_zero, hx]
  by_cases hdeg : (qcutBins x 10).length < 2
  · rw [if_neg hlen, if_pos hdeg]
  · rw [if_neg hlen, if_neg hdeg]
    apply List.sum_eq_zero
    intro y hy
    simp only [List.mem_map] at hy
    obtain ⟨i, _, rfl⟩ := hy
    simp

/-- Witness for C8 at a one-point sample. -/
theorem c8_psi_self_zero_witness : compute_psi [1] [1] 10 = 0 :=
  c8_psi_self_zero [1] (by simp)

set_option maxRecDepth 4000 in
/-- Claim C9: on at least 200 label-joined rows whose prediction kind is
classification, the performance section emits exactly the F1 metric
computed by thresholding the predicted probability at 0.5, integer-casting
the truth, and deriving F1 from true/false positive/negative counts with
0-denominator cases defined as 0; in particular the example predictions
[0.9, 0.1, 0.6, 0.4] against truths [1, 0, 1, 0] give F1 = 1, both on the
four example rows and replicated past the 200-row gate. -/
theorem c9_f1_classification :
    (∀ (rows : List PerfRow) (r0 : PerfRow), rows.head? = some r0 → 200 ≤ rows.length →
      r0.pred_type = "classification" → perfMetrics rows = [("f1", computeF1 rows)]) ∧
    computeF1 f1ExampleRows = 1 ∧
    perfMetrics f1GateRows = [("f1", 1)] := by
  refine ⟨perfMetrics_classification, computeF1_example, ?_⟩
  have hhead : f1GateRows.head? = some ⟨9 / 10, 1, "classification"⟩ := rfl
  have hlen : (200 : Nat) ≤ f1GateRows.length := by decide
  rw [perfMetrics_classification f1GateRows _ hhead hlen rfl, computeF1_gateRows]

set_option maxRecDepth 4000 in
/-- Witness for C9 at the replicated gate rows. -/
theorem c9_f1_classification_witness :
    f1GateRows.head? = some ⟨9 / 10, 1, "classification"⟩ ∧
    (200 : Nat) ≤ f1GateRows.length ∧
    perfMetrics f1GateRows = [("f1", computeF1 f1GateRows)] :=
  ⟨rfl, by decide,
   c9_f1_classification.1 f1GateRows ⟨9 / 10, 1, "classification"⟩ rfl (by decide) rfl⟩

/-- Claim C10: `log_inference` sanitizes the top-level numeric prediction
as well: the event it buffers (appended at the back of the buffer, and the
exact client state when no flush triggers) stores None in place of a NaN or
infinite `y_pred_num`, keeps every finite numeric prediction unchanged, and
stores None for a missing one. -/
theorem c10_pred_sanitized (st : ClientState) (inp : LogInput) (results : Nat → Bool) (now : ℚ)
    (hen : st.enabled = true) :
    (afterEnqueue st (mkEvent inp)).buffer.getLast? = some (mkEvent inp) ∧
    (shouldFlush (afterEnqueue st (mkEvent inp)) now = false →
      log_inference st inp results now = (afterEnqueue st (mkEvent inp), false, [])) ∧
    (mkEvent inp).y_pred_num =
      (match inp.y_pred_num with
       | Option.none => PyVal.pynone
       | some f => if f.isNonFinite then PyVal.pynone else PyVal.pyfloat f) := by
  refine ⟨?_, ?_, ?_⟩
  · unfold afterEnqueue enqueue
    by_cases h : st.buffer.length = MAX_BUFFER <;> simp [h]
  · intro hsf
    unfold log_inference
    simp [hen, hsf]
  · cases h : inp.y_pred_num <;> simp [mkEvent, sanitize, optFloatToVal, h]

/-- Witness for C10 at the demo client and demo call. -/
theorem c10_pred_sanitized_witness :
    (afterEnqueue demoState (mkEvent demoInput)).buffer.getLast? = some (mkEvent demoInput) ∧
    (shouldFlush (afterEnqueue demoState (mkEvent demoInput)) 0 = false →
      log_inference demoState demoInput allFail 0
        = (afterEnqueue demoState (mkEvent demoInput), false, [])) ∧
    (mkEvent demoInput).y_pred_num =
      (match demoInput.y_pred_num with
       | Option.none => PyVal.pynone
       | some f => if f.isNonFinite then PyVal.pynone else PyVal.pyfloat f) :=
  c10_pred_sanitized demoState demoInput allFail 0 rfl
